import Mathlib

/-!
Shallow embedding of the GoDCCP core, covering the CCID3 receiver-side
congestion control (src/dccp/ccid3/receiver.go) and the connection teardown
path (abort, kill, teardownUser, teardownWriteLoop).

Modelling conventions:
- Go mutation on the receiver struct becomes explicit state passing: each
  operation takes the state and returns the new state together with its
  Go return value.
- Go panics become Except.error; a function that cannot panic keeps a plain
  return type.
- The sub-modules embedded in the receiver (receiverRoundtripEstimator,
  receiverRateCalculator, receiverLossTracker) and the option codec
  (encodeOption) are defined outside the files under verification, so they
  are abstracted: their states are type parameters R, T, L and their methods
  are fields of a SubModels bundle.  Every theorem below quantifies over the
  bundle, so nothing proved depends on a particular sub-module behaviour.
- Machine integers (int64, int8, uint32) are modelled as Int or Nat; none of
  the verified code paths overflow-wraps.
-/

namespace GoDCCP

/-- Packet types of the dccp package that the core consumes. -/
inductive PacketType
  | Request
  | Response
  | Data
  | Ack
  | DataAck
  | CloseReq
  | Close
  | Reset
  | Sync
  | SyncAck
deriving DecidableEq, Repr

/-- Outbound pre-header view handed to OnWrite (dccp.PreHeader).
Go calls the first field Type; Lean reserves that word, so it is PType here. -/
structure PreHeader where
  PType : PacketType
  SeqNo : Int
  AckNo : Int
  CCVal : Int
  Time  : Int
deriving DecidableEq, Repr

/-- Inbound feed-forward header view handed to OnRead (dccp.FeedforwardHeader),
restricted to the fields read by the receiver. -/
structure FeedforwardHeader where
  PType : PacketType
  SeqNo : Int
  CCVal : Int
  Time  : Int
deriving DecidableEq, Repr

/-- Typed feedback options produced by the receiver before encoding. -/
inductive TypedOption
  | ElapsedTimeOption (tenMicro : Int)
  | ReceiveRateOption (rate : Nat)
  | LossIntervalsOption (intervals : List Nat)
deriving DecidableEq, Repr

/-- A wire-level option as produced by the option codec (dccp.Option).
Its internals are irrelevant to the claims; only identity and nil-ness matter. -/
structure RawOption where
  typ  : Nat
  data : List Nat
deriving DecidableEq, Repr

/-- The congestion signal the receiver may return from OnRead and OnIdle
(dccp.CongestionAck).  A Go return of nil is modelled as none. -/
inductive CCSignal
  | CongestionAck
deriving DecidableEq, Repr

/-- max64 from the dccp package: maximum of two int64 values. -/
def max64 (x y : Int) : Int :=
  max x y

/-- Modelled from the spec: TenMicroFromNano converts nanoseconds to units of
10 microseconds (the converter itself is defined outside src/). -/
def TenMicroFromNano (ns : Int) : Int :=
  ns / 10000

/-- Modelled from the spec (section 9): diffWindowCounter computes the circular
distance (a - b) mod 16, with the result in [0, 16); the function itself is
defined outside src/. -/
def diffWindowCounter (a b : Int) : Int :=
  (a - b) % 16

/-- Modelled from the spec: the all-ones uint32 sentinel meaning the loss-event
rate inverse is unknown (constant defined outside src/). -/
def UnknownLossEventRateInv : Nat :=
  4294967295

/-- The behaviour bundle for the three sub-modules embedded in the receiver and
for the option codec, none of which are under src/.  R, T, L are the states of
the roundtrip estimator, the rate calculator and the loss tracker. -/
structure SubModels (R T L : Type) where
  rttInit : R
  rttOnRead : R → FeedforwardHeader → R
  RTT : R → Int → Int × Bool
  rateInit : T
  rateOnRead : T → FeedforwardHeader → T
  Flush : T → Int → Int → T × Option TypedOption
  lossInit : L
  lossOnRead : L → FeedforwardHeader → Int → L
  LossEventRateInv : L → Nat
  LossIntervalsOption : L → Int → Option TypedOption
  encodeOption : TypedOption → Option RawOption

/-- encodeOption lifted to possibly-nil typed options: a nil typed option
encodes to a nil byte option, otherwise the bundled codec decides (and may
itself return nil, as the warnings in OnWrite anticipate). -/
def encOpt {R T L : Type} (B : SubModels R T L) : Option TypedOption → Option RawOption
  | none => none
  | some t => B.encodeOption t

/-- CCID3 receiver state (struct receiver of src/dccp/ccid3/receiver.go).
The run, logger and Mutex fields are omitted: logging has no effect on the
verified behaviour and the mutex only serializes calls.  The Go field named
open is isOpen here (Lean reserves the word). -/
structure receiver (R T L : Type) where
  receiverRoundtripEstimator : R
  receiverRateCalculator : T
  receiverLossTracker : L
  isOpen : Bool
  lastWrite : Int
  lastAck : Int
  dataSinceAck : Bool
  lastLossEventRateInv : Nat
  gsr : Int
  gsrTimestamp : Int
  lastCCVal : Int
  latestCCVal : Int
deriving DecidableEq, Repr

variable {R T L : Type}

/-- Open (receiver.go lines 49-70): fails on an already-open receiver,
otherwise re-initializes the sub-modules and zeroes every field except
lastLossEventRateInv, which gets the unknown sentinel. -/
def receiver.Open (B : SubModels R T L) (r : receiver R T L) : Except String (receiver R T L) :=
  if r.isOpen = true then Except.error ("opening an open ccid3 receiver")
  else Except.ok
    { receiverRoundtripEstimator := B.rttInit
      receiverRateCalculator := B.rateInit
      receiverLossTracker := B.lossInit
      isOpen := true
      lastWrite := 0
      lastAck := 0
      dataSinceAck := false
      lastLossEventRateInv := UnknownLossEventRateInv
      gsr := 0
      gsrTimestamp := 0
      lastCCVal := 0
      latestCCVal := 0 }

/-- Close (receiver.go lines 208-212): sets open to false. -/
def receiver.Close (r : receiver R T L) : receiver R T L :=
  { r with isOpen := false }

/-- makeElapsedTimeOption (receiver.go lines 72-83): nil when gsr == 0,
panic when the AckNo disagrees with gsr, otherwise the elapsed time since
the gsr packet converted to 10-microsecond units. -/
def receiver.makeElapsedTimeOption (r : receiver R T L) (ackNo now : Int) :
    Except String (Option TypedOption) :=
  if r.gsr = 0 then Except.ok none
  else if ackNo ≠ r.gsr then Except.error ("ccid3 receiver: GSR != AckNo")
  else Except.ok (some (TypedOption.ElapsedTimeOption
    (TenMicroFromNano (max64 0 (now - r.gsrTimestamp)))))

/-- OnWrite (receiver.go lines 87-132).  Note the source order: the RTT read
and the lastWrite update happen before the open check, so lastWrite is
recorded even on a closed receiver.  On Ack and DataAck packets the
feedback-state fields are updated, and when gsr > 0 the three feedback
options are built in order ElapsedTime, ReceiveRate, LossIntervals — raw
encodeOption results, kept even when nil. -/
def receiver.OnWrite (B : SubModels R T L) (r : receiver R T L) (ph : PreHeader) :
    Except String (receiver R T L × Option (List (Option RawOption))) :=
  let rtt := (B.RTT r.receiverRoundtripEstimator ph.Time).1
  let r := { r with lastWrite := ph.Time }
  if r.isOpen = false then Except.ok (r, none)
  else
    match ph.PType with
    | PacketType.Ack | PacketType.DataAck =>
      let r := { r with
        lastAck := ph.Time
        dataSinceAck := false
        lastLossEventRateInv := B.LossEventRateInv r.receiverLossTracker
        lastCCVal := r.latestCCVal }
      if 0 < r.gsr then
        match r.makeElapsedTimeOption ph.AckNo ph.Time with
        | Except.error e => Except.error e
        | Except.ok eto =>
          let fl := B.Flush r.receiverRateCalculator rtt ph.Time
          Except.ok ({ r with receiverRateCalculator := fl.1 },
            some [encOpt B eto, encOpt B fl.2,
                  encOpt B (B.LossIntervalsOption r.receiverLossTracker ph.AckNo)])
      else Except.ok (r, none)
    | PacketType.Data => Except.ok (r, none)
    | _ => Except.ok (r, none)

/-- The options component of OnWrite, for stating option-shape claims. -/
def receiver.OnWriteOptions (B : SubModels R T L) (r : receiver R T L) (ph : PreHeader) :
    Except String (Option (List (Option RawOption))) :=
  Except.map Prod.snd (receiver.OnWrite B r ph)

/-- The state updates of OnRead on an open receiver (receiver.go lines
144-166): gsr/gsrTimestamp on a linear strictly-greater sequence number,
dataSinceAck and latestCCVal on Data and DataAck, then the three sub-module
updates, the loss tracker seeing the freshly re-read RTT estimate. -/
def receiver.onReadUpdate (B : SubModels R T L) (r : receiver R T L)
    (ff : FeedforwardHeader) : receiver R T L :=
  let r := if ff.SeqNo > r.gsr then { r with gsr := ff.SeqNo, gsrTimestamp := ff.Time } else r
  let r := if ff.PType = PacketType.Data ∨ ff.PType = PacketType.DataAck
           then { r with dataSinceAck := true, latestCCVal := ff.CCVal } else r
  let r := { r with receiverRoundtripEstimator := B.rttOnRead r.receiverRoundtripEstimator ff }
  let rtt := (B.RTT r.receiverRoundtripEstimator ff.Time).1
  let r := { r with receiverRateCalculator := B.rateOnRead r.receiverRateCalculator ff }
  { r with receiverLossTracker := B.lossOnRead r.receiverLossTracker ff rtt }

/-- OnRead (receiver.go lines 137-185): nil on a closed receiver; otherwise
apply the state updates, then Feedback-Condition-II (new loss event rate
inverse below the last transmitted one) and Feedback-Condition-III (window
counter advanced by 4 or more on a Data or DataAck packet), each returning
CongestionAck; nil otherwise. -/
def receiver.OnRead (B : SubModels R T L) (r : receiver R T L) (ff : FeedforwardHeader) :
    receiver R T L × Option CCSignal :=
  if r.isOpen = false then (r, none)
  else if B.LossEventRateInv (receiver.onReadUpdate B r ff).receiverLossTracker <
          (receiver.onReadUpdate B r ff).lastLossEventRateInv then
    (receiver.onReadUpdate B r ff, some CCSignal.CongestionAck)
  else if (ff.PType = PacketType.Data ∨ ff.PType = PacketType.DataAck) ∧
          diffWindowCounter ff.CCVal (receiver.onReadUpdate B r ff).lastCCVal ≥ 4 then
    (receiver.onReadUpdate B r ff, some CCSignal.CongestionAck)
  else (receiver.onReadUpdate B r ff, none)

/-- OnIdle (receiver.go lines 188-205): nil on a closed receiver; otherwise
CongestionAck exactly when data arrived since the last Ack and more than one
current RTT estimate has elapsed since the last write.  It mutates nothing. -/
def receiver.OnIdle (B : SubModels R T L) (r : receiver R T L) (now : Int) : Option CCSignal :=
  if r.isOpen = false then none
  else
    let rtt := (B.RTT r.receiverRoundtripEstimator now).1
    if r.dataSinceAck = true ∧ now - r.lastWrite > rtt then some CCSignal.CongestionAck
    else none

/-! Connection teardown (src/unnamed/part_000, package dccp). -/

/-- DCCP endpoint states of the socket state machine. -/
inductive SocketState
  | LISTEN
  | REQUEST
  | RESPOND
  | PARTOPEN
  | OPEN
  | CLOSEREQ
  | CLOSING
  | TIMEWAIT
  | CLOSED
deriving DecidableEq, Repr

/-- The three channels a Conn owns towards the user and the write loop. -/
inductive ChanName
  | readApp
  | writeData
  | writeNonData
deriving DecidableEq, Repr

/-- Observable steps of the teardown paths, in program order: the lock
acquire/release around the socket-state write, the Reset injection into the
write loop, and each channel close. -/
inductive ConnEvent
  | lockAcquire
  | lockRelease
  | setState (s : SocketState)
  | inject (resetCode : Nat)
  | closeChan (ch : ChanName)
deriving DecidableEq, Repr

/-- Modelled from the spec (section 6): Reset code 2 means Aborted; the
constant ResetAborted is defined outside src/. -/
def ResetAborted : Nat :=
  2

/-- Connection state relevant to teardown: the socket state and one
closed-flag per owned channel.  The aborted flag is modelled from the spec:
it carries the once-semantics of the public teardown entry points, which are
not under src/ (section 4.1: implementations guarantee teardown idempotence
either by once-semantics on teardown or by state-guarded branching inside
the lock). -/
structure Conn where
  state : SocketState
  readAppClosed : Bool
  writeDataClosed : Bool
  writeNonDataClosed : Bool
  aborted : Bool
deriving DecidableEq, Repr

/-- Closing the readApp channel; closing a closed channel is a Go runtime
panic, modelled as an error. -/
def Conn.closeReadApp (c : Conn) : Except String Conn :=
  if c.readAppClosed = true then Except.error ("close of closed channel")
  else Except.ok { c with readAppClosed := true }

/-- Closing the writeData channel. -/
def Conn.closeWriteData (c : Conn) : Except String Conn :=
  if c.writeDataClosed = true then Except.error ("close of closed channel")
  else Except.ok { c with writeDataClosed := true }

/-- Closing the writeNonData channel. -/
def Conn.closeWriteNonData (c : Conn) : Except String Conn :=
  if c.writeNonDataClosed = true then Except.error ("close of closed channel")
  else Except.ok { c with writeNonDataClosed := true }

/-- teardownUser (part_000 lines 26-29): close readApp, then close writeData. -/
def Conn.teardownUser (c : Conn) : Except String (Conn × List ConnEvent) :=
  match c.closeReadApp with
  | Except.error e => Except.error e
  | Except.ok c =>
    match c.closeWriteData with
    | Except.error e => Except.error e
    | Except.ok c =>
      Except.ok (c, [ConnEvent.closeChan ChanName.readApp,
                     ConnEvent.closeChan ChanName.writeData])

/-- teardownWriteLoop (part_000 lines 31-33): close writeNonData. -/
def Conn.teardownWriteLoop (c : Conn) : Except String (Conn × List ConnEvent) :=
  match c.closeWriteNonData with
  | Except.error e => Except.error e
  | Except.ok c => Except.ok (c, [ConnEvent.closeChan ChanName.writeNonData])

/-- abort (part_000 lines 8-15): under the lock set the socket state to
CLOSED, release the lock, inject a Reset with code Aborted through the write
loop, tear down the user channels, and last tear down the write loop. -/
def Conn.abort (c : Conn) : Except String (Conn × List ConnEvent) :=
  let c := { c with state := SocketState.CLOSED }
  match c.teardownUser with
  | Except.error e => Except.error e
  | Except.ok cu =>
    match cu.1.teardownWriteLoop with
    | Except.error e => Except.error e
    | Except.ok cw =>
      Except.ok (cw.1,
        [ConnEvent.lockAcquire, ConnEvent.setState SocketState.CLOSED,
         ConnEvent.lockRelease, ConnEvent.inject ResetAborted] ++ cu.2 ++ cw.2)

/-- kill (part_000 lines 18-24): same as abort but with no Reset injection. -/
def Conn.kill (c : Conn) : Except String (Conn × List ConnEvent) :=
  let c := { c with state := SocketState.CLOSED }
  match c.teardownUser with
  | Except.error e => Except.error e
  | Except.ok cu =>
    match cu.1.teardownWriteLoop with
    | Except.error e => Except.error e
    | Except.ok cw =>
      Except.ok (cw.1,
        [ConnEvent.lockAcquire, ConnEvent.setState SocketState.CLOSED,
         ConnEvent.lockRelease] ++ cu.2 ++ cw.2)

/-- Modelled from the spec: the public Abort entry point is not under src/
(only the internal abort is).  Section 4.1 requires teardown idempotence
via once-semantics on teardown, modelled by the aborted flag: Abort on an
already-torn connection is a no-op. -/
def Conn.Abort (c : Conn) : Except String (Conn × List ConnEvent) :=
  if c.aborted = true then Except.ok (c, [])
  else Conn.abort { c with aborted := true }

/-- Modelled from the spec: the public Kill entry point, as Abort but over
kill. -/
def Conn.Kill (c : Conn) : Except String (Conn × List ConnEvent) :=
  if c.aborted = true then Except.ok (c, [])
  else Conn.kill { c with aborted := true }

/-- Number of close events for a given channel in a teardown trace. -/
def countCloses (t : List ConnEvent) (ch : ChanName) : Nat :=
  (t.filter (fun e => decide (e = ConnEvent.closeChan ch))).length

/-! Concrete instantiations used by counterexamples and witnesses. -/

/-- A trivial sub-module bundle over Nat states: constant RTT estimate 1000ns,
identity sub-module updates, loss event rate inverse read off the tracker
state, every option encodable. -/
def exB : SubModels Nat Nat Nat where
  rttInit := 0
  rttOnRead := fun s _ => s
  RTT := fun _ _ => (1000, false)
  rateInit := 0
  rateOnRead := fun s _ => s
  Flush := fun s _ _ => (s, some (TypedOption.ReceiveRateOption 0))
  lossInit := 0
  lossOnRead := fun s _ _ => s
  LossEventRateInv := fun s => s
  LossIntervalsOption := fun _ _ => some (TypedOption.LossIntervalsOption [])
  encodeOption := fun _ => some { typ := 0, data := [] }

/-- A bundle whose loss tracker state jumps to rate inverse 120 on any read. -/
def exB3 : SubModels Nat Nat Nat :=
  { exB with lossOnRead := fun _ _ _ => 120 }

/-- A bundle whose loss tracker state jumps to rate inverse 50 on any read. -/
def exB5 : SubModels Nat Nat Nat :=
  { exB with lossOnRead := fun _ _ _ => 50 }

/-- A bundle whose option codec always fails, encoding every option to nil. -/
def exB2 : SubModels Nat Nat Nat :=
  { exB with encodeOption := fun _ => none }

/-- A freshly opened receiver over Nat sub-module states. -/
def exRbase : receiver Nat Nat Nat where
  receiverRoundtripEstimator := 0
  receiverRateCalculator := 0
  receiverLossTracker := 0
  isOpen := true
  lastWrite := 0
  lastAck := 0
  dataSinceAck := false
  lastLossEventRateInv := UnknownLossEventRateInv
  gsr := 0
  gsrTimestamp := 0
  lastCCVal := 0
  latestCCVal := 0

/-- An open receiver that has seen a packet: gsr 1 received at time 10. -/
def exR1 : receiver Nat Nat Nat :=
  { exRbase with gsr := 1, gsrTimestamp := 10 }

/-- An open receiver whose tracker sits at rate inverse 150 with 100 last sent. -/
def exR3 : receiver Nat Nat Nat :=
  { exRbase with receiverLossTracker := 150, lastLossEventRateInv := 100 }

/-- An open receiver whose tracker sits at rate inverse 150 with 130 last sent. -/
def exR5 : receiver Nat Nat Nat :=
  { exRbase with receiverLossTracker := 150, lastLossEventRateInv := 130 }

/-- A closed receiver. -/
def exRClosed : receiver Nat Nat Nat :=
  { exRbase with isOpen := false }

/-- An open receiver with unacknowledged data. -/
def exRIdle : receiver Nat Nat Nat :=
  { exRbase with dataSinceAck := true }

/-- An Ack pre-header whose AckNo agrees with exR1's gsr. -/
def phGood : PreHeader :=
  { PType := PacketType.Ack, SeqNo := 7, AckNo := 1, CCVal := 0, Time := 100 }

/-- An Ack pre-header whose AckNo disagrees with exR1's gsr. -/
def phBad : PreHeader :=
  { phGood with AckNo := 2 }

/-- An Ack pre-header for a receiver that has seen nothing (gsr 0). -/
def phAck0 : PreHeader :=
  { PType := PacketType.Ack, SeqNo := 7, AckNo := 0, CCVal := 0, Time := 100 }

/-- A Data pre-header at time 5. -/
def phData5 : PreHeader :=
  { PType := PacketType.Data, SeqNo := 8, AckNo := 0, CCVal := 0, Time := 5 }

/-- An inbound Ack packet. -/
def ffAck1 : FeedforwardHeader :=
  { PType := PacketType.Ack, SeqNo := 1, CCVal := 0, Time := 50 }

/-- An inbound Data packet whose window counter advanced by 4. -/
def ffData4 : FeedforwardHeader :=
  { PType := PacketType.Data, SeqNo := 5, CCVal := 4, Time := 50 }

/-! Helper lemmas bridging the operations and their observable fields. -/

theorem receiver.onReadUpdate_gsr (B : SubModels R T L) (r : receiver R T L)
    (ff : FeedforwardHeader) :
    (receiver.onReadUpdate B r ff).gsr = if ff.SeqNo > r.gsr then ff.SeqNo else r.gsr := by
  simp only [receiver.onReadUpdate]
  split <;> split <;> rfl

theorem receiver.onReadUpdate_gsrTimestamp (B : SubModels R T L) (r : receiver R T L)
    (ff : FeedforwardHeader) :
    (receiver.onReadUpdate B r ff).gsrTimestamp =
      if ff.SeqNo > r.gsr then ff.Time else r.gsrTimestamp := by
  simp only [receiver.onReadUpdate]
  split <;> split <;> rfl

theorem receiver.onReadUpdate_lastLossEventRateInv (B : SubModels R T L)
    (r : receiver R T L) (ff : FeedforwardHeader) :
    (receiver.onReadUpdate B r ff).lastLossEventRateInv = r.lastLossEventRateInv := by
  simp only [receiver.onReadUpdate]
  split <;> split <;> rfl

theorem receiver.onReadUpdate_lastCCVal (B : SubModels R T L)
    (r : receiver R T L) (ff : FeedforwardHeader) :
    (receiver.onReadUpdate B r ff).lastCCVal = r.lastCCVal := by
  simp only [receiver.onReadUpdate]
  split <;> split <;> rfl

theorem receiver.OnRead_fst (B : SubModels R T L) (r : receiver R T L)
    (ff : FeedforwardHeader) (ho : r.isOpen = true) :
    (receiver.OnRead B r ff).1 = receiver.onReadUpdate B r ff := by
  unfold receiver.OnRead
  rw [if_neg (by simp [ho])]
  split_ifs <;> rfl

theorem receiver.OnRead_snd (B : SubModels R T L) (r : receiver R T L)
    (ff : FeedforwardHeader) (ho : r.isOpen = true) :
    (receiver.OnRead B r ff).2 =
      if B.LossEventRateInv (receiver.onReadUpdate B r ff).receiverLossTracker <
         r.lastLossEventRateInv then some CCSignal.CongestionAck
      else if (ff.PType = PacketType.Data ∨ ff.PType = PacketType.DataAck) ∧
              diffWindowCounter ff.CCVal r.lastCCVal ≥ 4 then some CCSignal.CongestionAck
      else none := by
  unfold receiver.OnRead
  rw [if_neg (by simp [ho]), receiver.onReadUpdate_lastLossEventRateInv,
      receiver.onReadUpdate_lastCCVal]
  split_ifs <;> rfl

theorem receiver.OnWrite_ack_gsrpos (B : SubModels R T L) (r : receiver R T L)
    (ph : PreHeader) (ho : r.isOpen = true)
    (ht : ph.PType = PacketType.Ack ∨ ph.PType = PacketType.DataAck)
    (hg : 0 < r.gsr) (ha : ph.AckNo = r.gsr) :
    receiver.OnWrite B r ph = Except.ok
      ({ r with
          lastWrite := ph.Time
          lastAck := ph.Time
          dataSinceAck := false
          lastLossEventRateInv := B.LossEventRateInv r.receiverLossTracker
          lastCCVal := r.latestCCVal
          receiverRateCalculator := (B.Flush r.receiverRateCalculator
            (B.RTT r.receiverRoundtripEstimator ph.Time).1 ph.Time).1 },
       some [encOpt B (some (TypedOption.ElapsedTimeOption
               (TenMicroFromNano (max64 0 (ph.Time - r.gsrTimestamp))))),
             encOpt B (B.Flush r.receiverRateCalculator
               (B.RTT r.receiverRoundtripEstimator ph.Time).1 ph.Time).2,
             encOpt B (B.LossIntervalsOption r.receiverLossTracker ph.AckNo)]) := by
  have hg0 : ¬ (r.gsr = 0) := by omega
  rcases ht with h | h <;>
    simp [receiver.OnWrite, receiver.makeElapsedTimeOption, h, ho, hg, hg0, ha]

theorem receiver.OnWrite_ack_gsr0 (B : SubModels R T L) (r : receiver R T L)
    (ph : PreHeader) (ho : r.isOpen = true)
    (ht : ph.PType = PacketType.Ack ∨ ph.PType = PacketType.DataAck)
    (hg : r.gsr = 0) :
    receiver.OnWrite B r ph = Except.ok
      ({ r with
          lastWrite := ph.Time
          lastAck := ph.Time
          dataSinceAck := false
          lastLossEventRateInv := B.LossEventRateInv r.receiverLossTracker
          lastCCVal := r.latestCCVal }, none) := by
  rcases ht with h | h <;> simp [receiver.OnWrite, h, ho, hg]

theorem receiver.OnWrite_ack_badAckNo (B : SubModels R T L) (r : receiver R T L)
    (ph : PreHeader) (ho : r.isOpen = true)
    (ht : ph.PType = PacketType.Ack ∨ ph.PType = PacketType.DataAck)
    (hg : 0 < r.gsr) (ha : ph.AckNo ≠ r.gsr) :
    receiver.OnWrite B r ph = Except.error ("ccid3 receiver: GSR != AckNo") := by
  have hg0 : ¬ (r.gsr = 0) := by omega
  rcases ht with h | h <;>
    simp [receiver.OnWrite, receiver.makeElapsedTimeOption, h, ho, hg, hg0, ha]

theorem Conn.abort_spec (c : Conn) (h1 : c.readAppClosed = false)
    (h2 : c.writeDataClosed = false) (h3 : c.writeNonDataClosed = false) :
    Conn.abort c = Except.ok
      ({ c with
          state := SocketState.CLOSED
          readAppClosed := true
          writeDataClosed := true
          writeNonDataClosed := true },
       [ConnEvent.lockAcquire, ConnEvent.setState SocketState.CLOSED,
        ConnEvent.lockRelease, ConnEvent.inject ResetAborted,
        ConnEvent.closeChan ChanName.readApp, ConnEvent.closeChan ChanName.writeData,
        ConnEvent.closeChan ChanName.writeNonData]) := by
  simp [Conn.abort, Conn.teardownUser, Conn.teardownWriteLoop, Conn.closeReadApp,
        Conn.closeWriteData, Conn.closeWriteNonData, h1, h2, h3]

/-! Claim theorems. -/

/-- Claim C1 counterexample: an open receiver with gsr = 1 handles an Ack
OnWrite whose AckNo is 2; instead of returning three options the call hits
the GSR != AckNo programming-error check and dies, so "the call returns
exactly 3 options" fails as stated for such calls. -/
theorem onWrite_ack_panics_on_bad_ackno :
    exR1.isOpen = true ∧ 0 < exR1.gsr ∧ phBad.PType = PacketType.Ack
    ∧ receiver.OnWrite exB exR1 phBad = Except.error ("ccid3 receiver: GSR != AckNo") := by
  refine ⟨rfl, by decide, rfl, rfl⟩

/-- Claim C1 (amended): for an Ack or DataAck OnWrite on an open receiver,
when gsr > 0 and the packet's AckNo equals gsr the call returns exactly three
options, in the order ElapsedTime, ReceiveRate, LossIntervals (when AckNo
differs from gsr the call panics instead of returning); when gsr = 0 the call
returns no options. -/
theorem onWrite_ack_three_options_amended (B : SubModels R T L) (r : receiver R T L)
    (ph : PreHeader) (ho : r.isOpen = true)
    (ht : ph.PType = PacketType.Ack ∨ ph.PType = PacketType.DataAck) :
    (0 < r.gsr → ph.AckNo = r.gsr →
      receiver.OnWriteOptions B r ph = Except.ok (some
        [encOpt B (some (TypedOption.ElapsedTimeOption
           (TenMicroFromNano (max64 0 (ph.Time - r.gsrTimestamp))))),
         encOpt B (B.Flush r.receiverRateCalculator
           (B.RTT r.receiverRoundtripEstimator ph.Time).1 ph.Time).2,
         encOpt B (B.LossIntervalsOption r.receiverLossTracker ph.AckNo)]))
    ∧ (r.gsr = 0 → receiver.OnWriteOptions B r ph = Except.ok none) := by
  constructor
  · intro hg ha
    simp only [receiver.OnWriteOptions]
    rw [receiver.OnWrite_ack_gsrpos B r ph ho ht hg ha]
    rfl
  · intro hg
    simp only [receiver.OnWriteOptions]
    rw [receiver.OnWrite_ack_gsr0 B r ph ho ht hg]
    rfl

/-- Claim C1 witness: the amended theorem applied at a concrete open receiver
with gsr = 1 and a matching Ack: exactly three encoded options come back. -/
theorem onWrite_ack_three_options_amended_witness :
    receiver.OnWriteOptions exB exR1 phGood = Except.ok (some
      [some { typ := 0, data := [] }, some { typ := 0, data := [] },
       some { typ := 0, data := [] }]) :=
  (onWrite_ack_three_options_amended exB exR1 phGood rfl (Or.inl rfl)).1 (by decide) rfl

/-- Claim C2 counterexample: on an open receiver that has seen no packet
(gsr = 0) an Ack OnWrite returns no options at all, whereas the claim
promises that ReceiveRate and LossIntervals would still be emitted. -/
theorem onWrite_gsr0_emits_nothing_cex :
    exRbase.isOpen = true ∧ exRbase.gsr = 0 ∧ phAck0.PType = PacketType.Ack
    ∧ receiver.OnWriteOptions exB exRbase phAck0 = Except.ok none :=
  ⟨rfl, rfl, rfl, rfl⟩

/-- Claim C2 (amended): when gsr = 0 an Ack or DataAck OnWrite on an open
receiver emits no options at all; makeElapsedTimeOption on its own does
return a nil option for gsr = 0, but OnWrite consults it only when gsr > 0,
so no feedback carrying just ReceiveRate and LossIntervals is ever sent. -/
theorem onWrite_gsr0_no_options_amended (B : SubModels R T L) (r : receiver R T L)
    (ph : PreHeader) (ackNo now : Int) (ho : r.isOpen = true)
    (ht : ph.PType = PacketType.Ack ∨ ph.PType = PacketType.DataAck)
    (hg : r.gsr = 0) :
    receiver.OnWriteOptions B r ph = Except.ok none
    ∧ receiver.makeElapsedTimeOption r ackNo now = Except.ok none := by
  constructor
  · simp only [receiver.OnWriteOptions]
    rw [receiver.OnWrite_ack_gsr0 B r ph ho ht hg]
    rfl
  · simp [receiver.makeElapsedTimeOption, hg]

/-- Claim C2 witness: the amended theorem applied at a concrete gsr = 0
receiver and Ack packet. -/
theorem onWrite_gsr0_no_options_amended_witness :
    receiver.OnWriteOptions exB exRbase phAck0 = Except.ok none
    ∧ receiver.makeElapsedTimeOption exRbase 0 100 = Except.ok none :=
  onWrite_gsr0_no_options_amended exB exRbase phAck0 0 100 rfl (Or.inl rfl) rfl

/-- Claim C3 counterexample: across this OnRead the loss tracker's
LossEventRateInv strictly decreases (150 to 120), yet because 120 is still at
least the last transmitted value 100 the call returns nil, not CongestionAck:
the code compares against lastLossEventRateInv, not the pre-call value. -/
theorem feedback_condition_II_claim_cex :
    exR3.isOpen = true
    ∧ exB3.LossEventRateInv ((receiver.OnRead exB3 exR3 ffAck1).1.receiverLossTracker) <
        exB3.LossEventRateInv exR3.receiverLossTracker
    ∧ (receiver.OnRead exB3 exR3 ffAck1).2 = none := by
  refine ⟨rfl, by decide, by decide⟩

/-- Claim C3 (amended): if the loss tracker's LossEventRateInv after the
OnRead update is strictly below lastLossEventRateInv, the value sent in the
most recent feedback, that OnRead returns CongestionAck. -/
theorem feedback_condition_II_amended (B : SubModels R T L) (r : receiver R T L)
    (ff : FeedforwardHeader) (ho : r.isOpen = true)
    (h : B.LossEventRateInv ((receiver.OnRead B r ff).1.receiverLossTracker) <
         r.lastLossEventRateInv) :
    (receiver.OnRead B r ff).2 = some CCSignal.CongestionAck := by
  rw [receiver.OnRead_fst B r ff ho] at h
  rw [receiver.OnRead_snd B r ff ho, if_pos h]

/-- Claim C3 witness: the amended theorem applied where the tracker drops to
50, below the last transmitted value 100. -/
theorem feedback_condition_II_amended_witness :
    (receiver.OnRead exB5 exR3 ffAck1).2 = some CCSignal.CongestionAck :=
  feedback_condition_II_amended exB5 exR3 ffAck1 rfl (by decide)

/-- Claim C4 counterexample: with a loss tracker whose rate inverse drops to
120, below the last transmitted 130, an Ack packet (neither Data nor DataAck,
window-counter difference 0) still makes OnRead return the send-ack-now
signal, so the window-counter condition is not the only trigger. -/
theorem feedback_condition_III_claim_cex :
    exR5.isOpen = true
    ∧ ffAck1.PType = PacketType.Ack
    ∧ ¬ ((ffAck1.PType = PacketType.Data ∨ ffAck1.PType = PacketType.DataAck) ∧
         diffWindowCounter ffAck1.CCVal exR5.lastCCVal ≥ 4)
    ∧ (receiver.OnRead exB3 exR5 ffAck1).2 = some CCSignal.CongestionAck := by
  refine ⟨rfl, rfl, by decide, by decide⟩

/-- Claim C4 (amended): on an open receiver the send-ack-now signal is
returned whenever (ccval - lastCCVal) mod 16 >= 4 on a Data or DataAck
packet; and provided Feedback-Condition-II does not hold (the new
LossEventRateInv is not below the last transmitted one), it is returned in no
other case. -/
theorem feedback_condition_III_amended (B : SubModels R T L) (r : receiver R T L)
    (ff : FeedforwardHeader) (ho : r.isOpen = true) :
    ((ff.PType = PacketType.Data ∨ ff.PType = PacketType.DataAck) →
      diffWindowCounter ff.CCVal r.lastCCVal ≥ 4 →
      (receiver.OnRead B r ff).2 = some CCSignal.CongestionAck)
    ∧ (r.lastLossEventRateInv ≤
        B.LossEventRateInv ((receiver.OnRead B r ff).1.receiverLossTracker) →
      ¬ ((ff.PType = PacketType.Data ∨ ff.PType = PacketType.DataAck) ∧
         diffWindowCounter ff.CCVal r.lastCCVal ≥ 4) →
      (receiver.OnRead B r ff).2 = none) := by
  constructor
  · intro hty hd
    rw [receiver.OnRead_snd B r ff ho]
    by_cases h1 : B.LossEventRateInv
        ((receiver.onReadUpdate B r ff).receiverLossTracker) < r.lastLossEventRateInv
    · rw [if_pos h1]
    · rw [if_neg h1, if_pos ⟨hty, hd⟩]
  · intro hge hnot
    rw [receiver.OnRead_fst B r ff ho] at hge
    rw [receiver.OnRead_snd B r ff ho, if_neg (by omega), if_neg hnot]

/-- Claim C4 witness: the amended theorem applied to a Data packet whose
window counter advanced by exactly 4. -/
theorem feedback_condition_III_amended_witness :
    (receiver.OnRead exB exRbase ffData4).2 = some CCSignal.CongestionAck :=
  (feedback_condition_III_amended exB exRbase ffData4 rfl).1 (Or.inl rfl) (by decide)

/-- Claim C5: on an open receiver OnIdle(now) returns CongestionAck when
dataSinceAck holds and now - lastWrite exceeds the current RTT estimate at
time now, and returns nil when either precondition fails. -/
theorem feedback_condition_I (B : SubModels R T L) (r : receiver R T L)
    (now : Int) (ho : r.isOpen = true) :
    (r.dataSinceAck = true ∧
        now - r.lastWrite > (B.RTT r.receiverRoundtripEstimator now).1 →
      receiver.OnIdle B r now = some CCSignal.CongestionAck)
    ∧ (r.dataSinceAck = false ∨
        ¬ now - r.lastWrite > (B.RTT r.receiverRoundtripEstimator now).1 →
      receiver.OnIdle B r now = none) := by
  constructor
  · intro h
    simp [receiver.OnIdle, ho, h.1, h.2]
  · intro h
    rcases h with h | h
    · simp [receiver.OnIdle, ho, h]
    · simp [receiver.OnIdle, ho, h]

/-- Claim C5 witness: OnIdle fires on a receiver with pending data once more
than an RTT (estimate 1000) has passed since the last write. -/
theorem feedback_condition_I_witness :
    receiver.OnIdle exB exRIdle 2000 = some CCSignal.CongestionAck :=
  (feedback_condition_I exB exRIdle 2000 rfl).1 (by decide)

/-- Claim C6: on an open receiver OnRead never decreases gsr, and it updates
gsr and gsrTimestamp to the packet's SeqNo and Time exactly when
ff.SeqNo > gsr under plain linear strict comparison, for every packet type. -/
theorem gsr_monotone_update (B : SubModels R T L) (r : receiver R T L)
    (ff : FeedforwardHeader) (ho : r.isOpen = true) :
    r.gsr ≤ (receiver.OnRead B r ff).1.gsr
    ∧ (ff.SeqNo > r.gsr →
        (receiver.OnRead B r ff).1.gsr = ff.SeqNo ∧
        (receiver.OnRead B r ff).1.gsrTimestamp = ff.Time)
    ∧ (¬ ff.SeqNo > r.gsr →
        (receiver.OnRead B r ff).1.gsr = r.gsr ∧
        (receiver.OnRead B r ff).1.gsrTimestamp = r.gsrTimestamp) := by
  rw [receiver.OnRead_fst B r ff ho, receiver.onReadUpdate_gsr,
      receiver.onReadUpdate_gsrTimestamp]
  by_cases h : ff.SeqNo > r.gsr
  · rw [if_pos h, if_pos h]
    exact ⟨by omega, fun _ => ⟨rfl, rfl⟩, fun hn => absurd h hn⟩
  · rw [if_neg h, if_neg h]
    exact ⟨le_refl _, fun hy => absurd hy h, fun _ => ⟨rfl, rfl⟩⟩

/-- Claim C6 witness: a packet with SeqNo 5 above gsr 1 moves gsr to 5 and
gsrTimestamp to the packet time 50. -/
theorem gsr_monotone_update_witness :
    (receiver.OnRead exB exR1 ffData4).1.gsr = 5
    ∧ (receiver.OnRead exB exR1 ffData4).1.gsrTimestamp = 50 :=
  (gsr_monotone_update exB exR1 ffData4 rfl).2.1 (by decide)

/-- Claim C7 counterexample: OnWrite on a closed receiver still records
lastWrite, because the assignment precedes the open check in the source; with
lastWrite 0 and a packet at time 5 the stored receiver changes, so OnWrite is
not a state-preserving no-op while closed. -/
theorem closed_receiver_onwrite_mutates_cex :
    exRClosed.isOpen = false
    ∧ receiver.OnWrite exB exRClosed phData5 =
        Except.ok ({ exRClosed with lastWrite := 5 }, none)
    ∧ ({ exRClosed with lastWrite := 5 } : receiver Nat Nat Nat) ≠ exRClosed := by
  refine ⟨rfl, rfl, by decide⟩

/-- Claim C7 (amended): on a closed receiver OnRead and OnIdle are no-ops
returning nil, and OnWrite returns no options and leaves every field
unchanged except lastWrite, which it still sets to ph.Time; Close is
idempotent (the identity on a closed receiver) and Open succeeds, producing
an open receiver. -/
theorem closed_receiver_noop_amended (B : SubModels R T L) (r : receiver R T L)
    (ph : PreHeader) (ff : FeedforwardHeader) (now : Int)
    (hc : r.isOpen = false) :
    receiver.OnWrite B r ph = Except.ok ({ r with lastWrite := ph.Time }, none)
    ∧ receiver.OnRead B r ff = (r, none)
    ∧ receiver.OnIdle B r now = none
    ∧ receiver.Close r = r
    ∧ Except.map receiver.isOpen (receiver.Open B r) = Except.ok true := by
  refine ⟨?_, ?_, ?_, ?_, ?_⟩
  · simp [receiver.OnWrite, hc]
  · simp [receiver.OnRead, hc]
  · simp [receiver.OnIdle, hc]
  · cases r
    simp_all [receiver.Close]
  · simp [receiver.Open, hc, Except.map]

/-- Claim C7 witness: the amended theorem applied at a concrete closed
receiver, read off at the OnRead conjunct. -/
theorem closed_receiver_noop_amended_witness :
    receiver.OnRead exB exRClosed ffAck1 = (exRClosed, none) :=
  (closed_receiver_noop_amended exB exRClosed phData5 ffAck1 0 rfl).2.1

/-- Claim C8: abort on a connection whose channels are still open performs,
in this fixed order: socket state to CLOSED under the lock, lock release,
injection of a Reset with code 2 (Aborted), close of readApp, close of
writeData, and only last the close of writeNonData — so the Reset is enqueued
before writeNonData is closed. -/
theorem abort_order (c : Conn) (h1 : c.readAppClosed = false)
    (h2 : c.writeDataClosed = false) (h3 : c.writeNonDataClosed = false) :
    Conn.abort c = Except.ok
      ({ c with
          state := SocketState.CLOSED
          readAppClosed := true
          writeDataClosed := true
          writeNonDataClosed := true },
       [ConnEvent.lockAcquire, ConnEvent.setState SocketState.CLOSED,
        ConnEvent.lockRelease, ConnEvent.inject ResetAborted,
        ConnEvent.closeChan ChanName.readApp, ConnEvent.closeChan ChanName.writeData,
        ConnEvent.closeChan ChanName.writeNonData]) :=
  Conn.abort_spec c h1 h2 h3

/-- A connection in OPEN state with all channels open and teardown not run. -/
def freshConn : Conn where
  state := SocketState.OPEN
  readAppClosed := false
  writeDataClosed := false
  writeNonDataClosed := false
  aborted := false

/-- Claim C8 witness: the abort ordering theorem applied to a fresh OPEN
connection. -/
theorem abort_order_witness :
    Conn.abort freshConn = Except.ok
      ({ freshConn with
          state := SocketState.CLOSED
          readAppClosed := true
          writeDataClosed := true
          writeNonDataClosed := true },
       [ConnEvent.lockAcquire, ConnEvent.setState SocketState.CLOSED,
        ConnEvent.lockRelease, ConnEvent.inject ResetAborted,
        ConnEvent.closeChan ChanName.readApp, ConnEvent.closeChan ChanName.writeData,
        ConnEvent.closeChan ChanName.writeNonData]) :=
  abort_order freshConn rfl rfl rfl

/-- The connection state after a completed teardown of c. -/
def abortedConn (c : Conn) : Conn :=
  { c with
      aborted := true
      state := SocketState.CLOSED
      readAppClosed := true
      writeDataClosed := true
      writeNonDataClosed := true }

/-- The event trace of a complete abort teardown. -/
def abortTrace : List ConnEvent :=
  [ConnEvent.lockAcquire, ConnEvent.setState SocketState.CLOSED,
   ConnEvent.lockRelease, ConnEvent.inject ResetAborted,
   ConnEvent.closeChan ChanName.readApp, ConnEvent.closeChan ChanName.writeData,
   ConnEvent.closeChan ChanName.writeNonData]

/-- Claim C9: two successive Abort calls on a fresh connection neither crash
nor double-close: the first completes the teardown trace, which closes each
of readApp, writeData and writeNonData exactly once, the second is a no-op
producing no events, and all three channels end closed. -/
theorem abort_idempotent (c : Conn) (h0 : c.aborted = false)
    (h1 : c.readAppClosed = false) (h2 : c.writeDataClosed = false)
    (h3 : c.writeNonDataClosed = false) :
    Conn.Abort c = Except.ok (abortedConn c, abortTrace)
    ∧ Conn.Abort (abortedConn c) = Except.ok (abortedConn c, [])
    ∧ (abortedConn c).readAppClosed = true
    ∧ (abortedConn c).writeDataClosed = true
    ∧ (abortedConn c).writeNonDataClosed = true
    ∧ countCloses (abortTrace ++ []) ChanName.readApp = 1
    ∧ countCloses (abortTrace ++ []) ChanName.writeData = 1
    ∧ countCloses (abortTrace ++ []) ChanName.writeNonData = 1 := by
  refine ⟨?_, ?_, rfl, rfl, rfl, by decide, by decide, by decide⟩
  · have hstep := Conn.abort_spec { c with aborted := true } h1 h2 h3
    simp only [Conn.Abort, h0]
    simp only [Bool.false_eq_true, if_false]
    exact hstep
  · simp [Conn.Abort, abortedConn]

/-- Claim C9 witness: the idempotence theorem applied to a fresh OPEN
connection, read off at the first Abort conjunct. -/
theorem abort_idempotent_witness :
    Conn.Abort freshConn = Except.ok (abortedConn freshConn, abortTrace) :=
  (abort_idempotent freshConn rfl rfl rfl rfl).1

/-- Claim C10: whenever an open receiver's OnWrite on an Ack or DataAck with
gsr > 0 returns an option slice, that slice is exactly the three raw
encodeOption results in order, with no filtering: an entry whose encoding is
nil stays in place, so callers can receive a 3-element list with nil
entries. -/
theorem onWrite_options_raw_unfiltered (B : SubModels R T L) (r : receiver R T L)
    (ph : PreHeader) (opts : List (Option RawOption))
    (ho : r.isOpen = true)
    (ht : ph.PType = PacketType.Ack ∨ ph.PType = PacketType.DataAck)
    (hg : 0 < r.gsr)
    (hres : receiver.OnWriteOptions B r ph = Except.ok (some opts)) :
    opts = [encOpt B (some (TypedOption.ElapsedTimeOption
              (TenMicroFromNano (max64 0 (ph.Time - r.gsrTimestamp))))),
            encOpt B (B.Flush r.receiverRateCalculator
              (B.RTT r.receiverRoundtripEstimator ph.Time).1 ph.Time).2,
            encOpt B (B.LossIntervalsOption r.receiverLossTracker ph.AckNo)] := by
  by_cases ha : ph.AckNo = r.gsr
  · have h := receiver.OnWrite_ack_gsrpos B r ph ho ht hg ha
    simp only [receiver.OnWriteOptions, h, Except.map] at hres
    simpa using hres.symm
  · have h := receiver.OnWrite_ack_badAckNo B r ph ho ht hg ha
    simp only [receiver.OnWriteOptions, h, Except.map] at hres
    exact Except.noConfusion hres

/-- Claim C10 witness: with a codec that encodes every option to nil, the
returned slice is [nil, nil, nil] — three raw entries, none filtered out. -/
theorem onWrite_options_raw_unfiltered_witness :
    ([none, none, none] : List (Option RawOption)) =
      [encOpt exB2 (some (TypedOption.ElapsedTimeOption
         (TenMicroFromNano (max64 0 (phGood.Time - exR1.gsrTimestamp))))),
       encOpt exB2 (exB2.Flush exR1.receiverRateCalculator
         (exB2.RTT exR1.receiverRoundtripEstimator phGood.Time).1 phGood.Time).2,
       encOpt exB2 (exB2.LossIntervalsOption exR1.receiverLossTracker phGood.AckNo)] :=
  onWrite_options_raw_unfiltered exB2 exR1 phGood [none, none, none] rfl (Or.inl rfl)
    (by decide) rfl

end GoDCCP
